import Mathlib

set_option maxHeartbeats 1000000

namespace StoreFile

/-- Bytes of one candidate blob. -/
abbrev Blob := List Nat

/-- C strings: PEM names, headers, paths, passphrases. -/
abbrev Str := List Char

/-- Decoded objects (OSSL_STORE_INFO).  The payloads of the external codec
types (EVP_PKEY, X509, X509_CRL) are treated by the loader as fully
abstract values, represented here by numeric tags. -/
inductive OSSL_STORE_INFO where
  | PKEY (v : Nat)
  | CERT (v : Nat)
  | CRL (v : Nat)
  | PARAMS (v : Nat)
  | EMBEDDED (pem_name : Option Str) (buf : Blob)
deriving DecidableEq

/-- Handler private context (the void *handler_ctx slot).  Only the PKCS12
handler creates one: a STACK_OF(OSSL_STORE_INFO) of still-undelivered
objects. -/
abbrev HCtx := List OSSL_STORE_INFO

/-- FILE_HANDLER: the static descriptor of function members.  try_decode
receives (pem_name, pem_header, blob, *handler_ctx) and returns the result
together with the new value of *handler_ctx; a NULL blob pointer is
modelled as none. -/
structure FILE_HANDLER where
  name : Str
  try_decode : Option Str → Option Str → Option Blob → Option HCtx →
      Option OSSL_STORE_INFO × Option HCtx
  eof : Option HCtx → Bool
  destroy_ctx : Option HCtx → Option HCtx
  repeatable : Bool

/-- One registered EVP_PKEY_ASN1_METHOD, reduced to the fields the loader
consults (pkey_id, the ASN1_PKEY_ALIAS flag, whether param_decode is
non-NULL). -/
structure AMeth where
  pkey_id : Nat
  pkeyAlias : Bool
  has_param_decode : Bool

/-- The external codecs and the passphrase gateway the handlers depend on.
The spec treats all of these as collaborators outside the core: each is an
abstract total function supplied as a parameter of the development. -/
structure Codecs where
  d2i_PKCS12 : Option Blob → Option Nat
  PKCS12_verify_mac : Nat → Option Str → Bool
  PKCS12_parse : Nat → Str → Option (Nat × Nat × List Nat)
  file_get_pass : Str → Option Str
  pem_check_suffix : Str → Str → Nat
  asn1_find_str : Str → Nat → Option AMeth
  ameths : List AMeth
  d2i_PrivateKey : Nat → Option Blob → Option Nat
  d2i_PUBKEY : Option Blob → Option Nat
  set_type : Nat → Bool
  set_type_str : Str → Nat → Option AMeth
  param_decode : Nat → Option Blob → Bool
  d2i_X509_AUX : Option Blob → Option Nat
  d2i_X509 : Option Blob → Option Nat
  d2i_X509_CRL : Option Blob → Option Nat
  pem_decrypt : Str → Blob → Option Blob

def PEM_STRING_PUBLIC : Str := "PUBLIC KEY".toList

def PEM_STRING_X509_TRUSTED : Str := "TRUSTED CERTIFICATE".toList

def PEM_STRING_X509_OLD : Str := "X509 CERTIFICATE".toList

def PEM_STRING_X509 : Str := "CERTIFICATE".toList

def PEM_STRING_X509_CRL : Str := "X509 CRL".toList

def pkcs12PromptInfo : Str := "PKCS12 import password".toList

/-- try_decode_PKCS12: on the initial call (*pctx NULL) it matches only a
blob with no PEM name whose bytes d2i as PKCS12, verifies the MAC with the
empty passphrase, the NULL passphrase, then a passphrase from the gateway,
parses, builds the stack [key, cert, chain...] and shifts off the first
entry; on later calls it shifts the next entry off the stack. -/
def try_decode_PKCS12 (o : Codecs) (pem_name _pem_header : Option Str)
    (blob : Option Blob) (pctx : Option HCtx) :
    Option OSSL_STORE_INFO × Option HCtx :=
  match pctx with
  | none =>
    if pem_name.isSome then (none, none)
    else
      match o.d2i_PKCS12 blob with
      | none => (none, none)
      | some p12 =>
        let passChoice : Option Str :=
          if o.PKCS12_verify_mac p12 (some []) || o.PKCS12_verify_mac p12 none
          then some []
          else
            match o.file_get_pass pkcs12PromptInfo with
            | none => none
            | some pass =>
              if o.PKCS12_verify_mac p12 (some pass) then some pass else none
        match passChoice with
        | none => (none, none)
        | some pass =>
          match o.PKCS12_parse p12 pass with
          | none => (none, none)
          | some (pkey, cert, chain) =>
            (some (OSSL_STORE_INFO.PKEY pkey),
             some (OSSL_STORE_INFO.CERT cert
                    :: chain.map OSSL_STORE_INFO.CERT))
  | some stack =>
    match stack with
    | [] => (none, some [])
    | i :: rest => (some i, some rest)

def eof_PKCS12 : Option HCtx → Bool
  | none => true
  | some stack => stack.isEmpty

def destroy_ctx_PKCS12 : Option HCtx → Option HCtx := fun _ => none

def PKCS12_handler (o : Codecs) : FILE_HANDLER :=
  { name := "PKCS12".toList
    try_decode := try_decode_PKCS12 o
    eof := eof_PKCS12
    destroy_ctx := destroy_ctx_PKCS12
    repeatable := true }

/-- The per-ALGORITHM scan of try_decode_PrivateKey when no PEM name is
present: try every non-alias registered method until one d2i succeeds. -/
def findPKey (o : Codecs) (blob : Option Blob) : List AMeth → Option Nat
  | [] => none
  | am :: rest =>
    if am.pkeyAlias then findPKey o blob rest
    else
      match o.d2i_PrivateKey am.pkey_id blob with
      | some k => some k
      | none => findPKey o blob rest

def try_decode_PrivateKey (o : Codecs) (pem_name _pem_header : Option Str)
    (blob : Option Blob) (pctx : Option HCtx) :
    Option OSSL_STORE_INFO × Option HCtx :=
  let pkey : Option Nat :=
    match pem_name with
    | some n =>
      let slen := o.pem_check_suffix n "PRIVATE KEY".toList
      if slen > 0 then
        match o.asn1_find_str n slen with
        | some am => o.d2i_PrivateKey am.pkey_id blob
        | none => none
      else none
    | none => findPKey o blob o.ameths
  (pkey.map OSSL_STORE_INFO.PKEY, pctx)

def PrivateKey_handler (o : Codecs) : FILE_HANDLER :=
  { name := "PrivateKey".toList
    try_decode := try_decode_PrivateKey o
    eof := fun _ => true
    destroy_ctx := fun _ => none
    repeatable := false }

def try_decode_PUBKEY (o : Codecs) (pem_name _pem_header : Option Str)
    (blob : Option Blob) (pctx : Option HCtx) :
    Option OSSL_STORE_INFO × Option HCtx :=
  match pem_name with
  | some n =>
    if n = PEM_STRING_PUBLIC then ((o.d2i_PUBKEY blob).map OSSL_STORE_INFO.PKEY, pctx)
    else (none, pctx)
  | none => ((o.d2i_PUBKEY blob).map OSSL_STORE_INFO.PKEY, pctx)

def PUBKEY_handler (o : Codecs) : FILE_HANDLER :=
  { name := "PUBKEY".toList
    try_decode := try_decode_PUBKEY o
    eof := fun _ => true
    destroy_ctx := fun _ => none
    repeatable := false }

/-- The per-ALGORITHM scan of try_decode_params when no PEM name is
present. -/
def findParams (o : Codecs) (blob : Option Blob) : List AMeth → Option Nat
  | [] => none
  | am :: rest =>
    if am.pkeyAlias then findParams o blob rest
    else if o.set_type am.pkey_id && am.has_param_decode
            && o.param_decode am.pkey_id blob then some am.pkey_id
    else findParams o blob rest

def try_decode_params (o : Codecs) (pem_name _pem_header : Option Str)
    (blob : Option Blob) (pctx : Option HCtx) :
    Option OSSL_STORE_INFO × Option HCtx :=
  let pk : Option Nat :=
    match pem_name with
    | some n =>
      let slen := o.pem_check_suffix n "PARAMETERS".toList
      if slen > 0 then
        match o.set_type_str n slen with
        | some am =>
          if am.has_param_decode && o.param_decode am.pkey_id blob
          then some am.pkey_id else none
        | none => none
      else none
    | none => findParams o blob o.ameths
  (pk.map OSSL_STORE_INFO.PARAMS, pctx)

def params_handler (o : Codecs) : FILE_HANDLER :=
  { name := "params".toList
    try_decode := try_decode_params o
    eof := fun _ => true
    destroy_ctx := fun _ => none
    repeatable := false }

/-- The pem_name acceptance test of try_decode_X509Certificate: none
means no match at all, some b gives the value of ignore_trusted (whether
the plain-certificate fallback may be engaged). -/
def cert_name_gate (pem_name : Option Str) : Option Bool :=
  match pem_name with
  | none => some true
  | some n =>
    if n = PEM_STRING_X509_TRUSTED then some false
    else if n = PEM_STRING_X509_OLD ∨ n = PEM_STRING_X509 then some true
    else none

/-- try_decode_X509Certificate: the trusted decode (d2i_X509_AUX) is tried
first; the plain decode (d2i_X509) is a fallback engaged only when the PEM
name did not specifically declare a trusted certificate. -/
def try_decode_X509Certificate (o : Codecs) (pem_name _pem_header : Option Str)
    (blob : Option Blob) (pctx : Option HCtx) :
    Option OSSL_STORE_INFO × Option HCtx :=
  match cert_name_gate pem_name with
  | none => (none, pctx)
  | some ignore_trusted =>
    match o.d2i_X509_AUX blob with
    | some cert => (some (OSSL_STORE_INFO.CERT cert), pctx)
    | none =>
      if ignore_trusted then
        ((o.d2i_X509 blob).map OSSL_STORE_INFO.CERT, pctx)
      else (none, pctx)

def X509Certificate_handler (o : Codecs) : FILE_HANDLER :=
  { name := "X509Certificate".toList
    try_decode := try_decode_X509Certificate o
    eof := fun _ => true
    destroy_ctx := fun _ => none
    repeatable := false }

def try_decode_X509CRL (o : Codecs) (pem_name _pem_header : Option Str)
    (blob : Option Blob) (pctx : Option HCtx) :
    Option OSSL_STORE_INFO × Option HCtx :=
  match pem_name with
  | some n =>
    if n = PEM_STRING_X509_CRL then ((o.d2i_X509_CRL blob).map OSSL_STORE_INFO.CRL, pctx)
    else (none, pctx)
  | none => ((o.d2i_X509_CRL blob).map OSSL_STORE_INFO.CRL, pctx)

def X509CRL_handler (o : Codecs) : FILE_HANDLER :=
  { name := "X509CRL".toList
    try_decode := try_decode_X509CRL o
    eof := fun _ => true
    destroy_ctx := fun _ => none
    repeatable := false }

/-- The fixed registry, in registration order. -/
def file_handlers (o : Codecs) : List FILE_HANDLER :=
  [PKCS12_handler o, X509Certificate_handler o, X509CRL_handler o,
   params_handler o, PUBKEY_handler o, PrivateKey_handler o]

/-- One unit the underlying BIO can yield: a PEM record (name, header,
decoded body), a raw DER object, or malformed input on which the read
routine fails while the stream is not yet exhausted. -/
inductive Rec where
  | pem (name : Str) (header : Str) (data : Blob)
  | raw (data : Blob)
  | bad
deriving DecidableEq

/-- What a successfully opened path denotes: the armor-sniff outcome and
the sequence of readable units. -/
structure File where
  is_pem : Bool
  recs : List Rec

/-- struct ossl_store_loader_ctx_st. -/
structure ossl_store_loader_ctx_st where
  file : List Rec
  is_pem : Bool
  errcnt : Nat
  last_handler : Option FILE_HANDLER
  last_handler_ctx : Option HCtx

/-- The OSSL_STORE error reasons the dispatch engine raises. -/
inductive StoreErr where
  | isNotA (name : Str)
  | ambiguousContentType
  | unsupportedContentType
deriving DecidableEq

/-- Accumulator of the handler loop inside file_load_try_decode: the
candidate result, the match count, matching_handlers[0], the surviving
handler_ctx, and the raised error reasons. -/
structure DecodeAcc where
  result : Option OSSL_STORE_INFO
  matchcount : Nat
  handler0 : Option FILE_HANDLER
  handler_ctx : Option HCtx
  errs : List StoreErr

/-- The for-loop of file_load_try_decode over the handler table: each
handler is probed with a fresh NULL tmp_handler_ctx; a first match keeps
its result and context, a further match frees both results, destroys the
surviving context and clears the candidate. -/
def file_load_try_decode_pass (pem_name pem_header : Option Str)
    (blob : Option Blob) : List FILE_HANDLER → DecodeAcc → DecodeAcc
  | [], acc => acc
  | h :: rest, acc =>
    let next : DecodeAcc :=
      match h.try_decode pem_name pem_header blob none with
      | (none, _) => { acc with errs := acc.errs ++ [StoreErr.isNotA h.name] }
      | (some r, tmp_ctx) =>
        let h0 := match acc.handler0 with
          | none => some h
          | some h0 => some h0
        if acc.matchcount + 1 = 1 then
          { acc with result := some r, matchcount := 1, handler0 := h0,
                     handler_ctx := tmp_ctx }
        else
          { acc with result := none, matchcount := acc.matchcount + 1,
                     handler0 := h0, handler_ctx := none }
    file_load_try_decode_pass pem_name pem_header blob rest next

def initDecodeAcc : DecodeAcc :=
  { result := none, matchcount := 0, handler0 := none, handler_ctx := none,
    errs := [] }

/-- One full iteration of the again-loop of file_load_try_decode: run the
handler loop, raise the ambiguity or unsupported error, and when there is
at least one match whose first matching handler is repeatable, adopt
(handler, handler_ctx) as the loader's sticky pair.  The loader context is
always present here: file_load is the only caller. -/
def file_load_try_decode_step (hs : List FILE_HANDLER)
    (ctx : ossl_store_loader_ctx_st) (pem_name pem_header : Option Str)
    (blob : Option Blob) : ossl_store_loader_ctx_st × DecodeAcc :=
  let acc := file_load_try_decode_pass pem_name pem_header blob hs initDecodeAcc
  let acc :=
    if acc.matchcount > 1 then
      { acc with errs := acc.errs ++ [StoreErr.ambiguousContentType] }
    else acc
  if acc.matchcount = 0 then
    (ctx, { acc with errs := acc.errs ++ [StoreErr.unsupportedContentType] })
  else
    match acc.handler0 with
    | some h0 =>
      if h0.repeatable then
        ({ ctx with last_handler := some h0,
                    last_handler_ctx := acc.handler_ctx }, acc)
      else (ctx, acc)
    | none => (ctx, acc)

/-- file_load_try_decode: iterations of the again-loop.  An EMBEDDED
result replaces the current pem_name and blob and re-dispatches; the fuel
bounds the number of unwrap passes, none meaning the C loop would still be
running.  A non-EMBEDDED success clears the accumulated error queue. -/
def file_load_try_decode (hs : List FILE_HANDLER) (fuel : Nat)
    (ctx : ossl_store_loader_ctx_st) (pem_name pem_header : Option Str)
    (blob : Option Blob) (errAcc : List StoreErr) :
    Option (ossl_store_loader_ctx_st × Option OSSL_STORE_INFO × Nat × List StoreErr) :=
  match fuel with
  | 0 => none
  | Nat.succ fuel =>
    match file_load_try_decode_step hs ctx pem_name pem_header blob with
    | (ctx, acc) =>
      match acc.result with
      | some (OSSL_STORE_INFO.EMBEDDED new_name buf) =>
        file_load_try_decode hs fuel ctx new_name pem_header (some buf)
          (errAcc ++ acc.errs)
      | some r => some (ctx, some r, acc.matchcount, [])
      | none => some (ctx, none, acc.matchcount, errAcc ++ acc.errs)

/-- file_load_try_repeat: ask the sticky handler for the next object from
the existing handler_ctx; on a NULL result destroy the context and clear
both sticky fields. -/
def file_load_try_repeat (ctx : ossl_store_loader_ctx_st) :
    ossl_store_loader_ctx_st × Option OSSL_STORE_INFO :=
  match ctx.last_handler with
  | none => (ctx, none)
  | some h =>
    match h.try_decode none none none ctx.last_handler_ctx with
    | (none, _) =>
      ({ ctx with last_handler := none, last_handler_ctx := none }, none)
    | (some r, c') => ({ ctx with last_handler_ctx := c' }, some r)

/-- file_read_pem: PEM_read_bio plus the in-place decryption of a legacy
encrypted record when the header is long enough to carry a cipher
declaration.  The cipher parsing, gateway call and decryption are bundled
in the pem_decrypt collaborator. -/
def file_read_pem (o : Codecs) (recs : List Rec) :
    Option (Option Str × Option Str × Blob) × List Rec :=
  match recs with
  | [] => (none, [])
  | Rec.bad :: rest => (none, rest)
  | Rec.raw _ :: rest => (none, rest)
  | Rec.pem n h d :: rest =>
    if h.length > 10 then
      match o.pem_decrypt h d with
      | none => (none, rest)
      | some d2 => (some (some n, some h, d2), rest)
    else (some (some n, some h, d), rest)

/-- file_read_asn1: one opaque DER object, no name, no header. -/
def file_read_asn1 (recs : List Rec) :
    Option (Option Str × Option Str × Blob) × List Rec :=
  match recs with
  | [] => (none, [])
  | Rec.raw d :: rest => (some (none, none, d), rest)
  | Rec.pem _ _ _ :: rest => (none, rest)
  | Rec.bad :: rest => (none, rest)

def file_error (ctx : ossl_store_loader_ctx_st) : Bool :=
  ctx.errcnt > 0

def file_eof (ctx : ossl_store_loader_ctx_st) : Bool :=
  match ctx.last_handler with
  | some h => if h.eof ctx.last_handler_ctx then ctx.file.isEmpty else false
  | none => ctx.file.isEmpty

/-- The do-while loop of file_load.  A failed read increments errcnt
unless the loader is at eof; the loop repeats only while the last dispatch
found zero matches and the loader is neither at eof nor errored.  The fuel
is an upper bound on iterations; file_load passes one more than the record
count, which the loop can never exhaust. -/
def file_load_loop (hs : List FILE_HANDLER) (o : Codecs) (dfuel : Nat)
    (fuel : Nat) (ctx : ossl_store_loader_ctx_st)
    (result : Option OSSL_STORE_INFO) (matchcount : Int)
    (errAcc : List StoreErr) :
    Option (ossl_store_loader_ctx_st × Option OSSL_STORE_INFO × Int × List StoreErr) :=
  match fuel with
  | 0 => none
  | Nat.succ fuel =>
    match (if ctx.is_pem then file_read_pem o ctx.file
           else file_read_asn1 ctx.file) with
    | (readRes, file2) =>
      let ctx := { ctx with file := file2 }
      match readRes with
      | none =>
        let ctx :=
          if file_eof ctx then ctx else { ctx with errcnt := ctx.errcnt + 1 }
        if matchcount = 0 ∧ file_eof ctx = false ∧ file_error ctx = false then
          file_load_loop hs o dfuel fuel ctx result matchcount errAcc
        else some (ctx, result, matchcount, errAcc)
      | some (pem_name, pem_header, data) =>
        match file_load_try_decode hs dfuel ctx pem_name pem_header
                (some data) [] with
        | none => none
        | some (ctx, result, mc, errs) =>
          let matchcount : Int := (mc : Int)
          let errAcc := if result.isSome then [] else errAcc ++ errs
          if matchcount = 0 ∧ file_eof ctx = false ∧ file_error ctx = false then
            file_load_loop hs o dfuel fuel ctx result matchcount errAcc
          else some (ctx, result, matchcount, errAcc)

/-- file_load: drain the sticky handler first, then bail out if errored,
then run the read/dispatch loop; more than one match means an ambiguity
bail-out with no object. -/
def file_load (o : Codecs) (dfuel : Nat) (ctx : ossl_store_loader_ctx_st) :
    Option (ossl_store_loader_ctx_st × Option OSSL_STORE_INFO × List StoreErr) :=
  match file_load_try_repeat ctx with
  | (ctx1, some r) => some (ctx1, some r, [])
  | (ctx1, none) =>
    if file_error ctx1 then some (ctx1, none, [])
    else
      match file_load_loop (file_handlers o) o dfuel (ctx1.file.length + 1)
              ctx1 none (-1) [] with
      | none => none
      | some (ctx2, result, mc, errs) =>
        if mc > 1 then some (ctx2, none, errs)
        else some (ctx2, result, errs)

inductive OpenErr where
  | uriAuthorityUnsupported
  | pathMustBeAbsolute
  | ioError
deriving DecidableEq

/-- The authority resolution of file_open for an explicit file: scheme:
"//localhost/" keeps the path from its final slash, "///" from the third
slash, any other "//" authority is unsupported, and anything else is taken
verbatim after the scheme. -/
def file_scheme_path (uri : Str) : Option Str :=
  let rest := uri.drop 5
  if rest.take 12 = "//localhost/".toList then some (uri.drop 16)
  else if rest.take 3 = "///".toList then some (uri.drop 7)
  else if rest.take 2 = "//".toList then none
  else some (uri.drop 5)

def openPath (fs : Str → Option File) (path : Str) :
    Except OpenErr ossl_store_loader_ctx_st :=
  match fs path with
  | none => Except.error OpenErr.ioError
  | some f =>
    Except.ok { file := f.recs, is_pem := f.is_pem, errcnt := 0,
                last_handler := none, last_handler_ctx := none }

/-- file_open: case-insensitive scheme test, authority resolution, the
RFC 8089 absolute-path requirement, then the actual open of the path over
the filesystem collaborator. -/
def file_open (fs : Str → Option File) (uri : Str) :
    Except OpenErr ossl_store_loader_ctx_st :=
  if (uri.take 5).map Char.toLower = "file:".toList then
    match file_scheme_path uri with
    | none => Except.error OpenErr.uriAuthorityUnsupported
    | some path =>
      if path.take 1 = ['/'] then openPath fs path
      else Except.error OpenErr.pathMustBeAbsolute
  else openPath fs uri

/-- The teardown steps of file_close, in order. -/
inductive CloseAction where
  | destroyHandlerCtx
  | freeStream
  | freeLoader
deriving DecidableEq

/-- file_close: destroy a live sticky context and clear both sticky
fields, then free the stream, then the loader.  The action list records
the order of the teardown calls; the returned record is the loader's
field state after the sticky teardown. -/
def file_close (ctx : ossl_store_loader_ctx_st) :
    List CloseAction × ossl_store_loader_ctx_st :=
  if ctx.last_handler.isSome then
    ([CloseAction.destroyHandlerCtx, CloseAction.freeStream,
      CloseAction.freeLoader],
     { ctx with last_handler := none, last_handler_ctx := none })
  else
    ([CloseAction.freeStream, CloseAction.freeLoader],
     { ctx with last_handler := none, last_handler_ctx := none })

/-- The loader states reachable through the public interface: a
successful open, followed by any number of completed load calls. -/
inductive Reachable (o : Codecs) : ossl_store_loader_ctx_st → Prop where
  | openR : ∀ (fs : Str → Option File) (uri : Str)
      (ctx : ossl_store_loader_ctx_st),
      file_open fs uri = Except.ok ctx → Reachable o ctx
  | loadR : ∀ (ctx ctx' : ossl_store_loader_ctx_st) (dfuel : Nat)
      (r : Option OSSL_STORE_INFO) (errs : List StoreErr),
      Reachable o ctx → file_load o dfuel ctx = some (ctx', r, errs) →
      Reachable o ctx'

/-- The sticky-pair consistency invariant: a live handler_ctx is always
owned by a live handler. -/
def stickyInv (ctx : ossl_store_loader_ctx_st) : Prop :=
  ctx.last_handler_ctx.isSome = true → ctx.last_handler.isSome = true

/-- n successive load calls, collecting the returned objects. -/
def loadMany (o : Codecs) (dfuel : Nat) :
    Nat → ossl_store_loader_ctx_st →
    Option (List (Option OSSL_STORE_INFO) × ossl_store_loader_ctx_st)
  | 0, ctx => some ([], ctx)
  | Nat.succ n, ctx =>
    match file_load o dfuel ctx with
    | none => none
    | some (ctx', r, _) =>
      match loadMany o dfuel n ctx' with
      | none => none
      | some (rs, ctxF) => some (r :: rs, ctxF)

/-! Concrete fixtures used by the witnesses. -/

/-- A collaborator bundle on which every codec fails. -/
def oNull : Codecs :=
  { d2i_PKCS12 := fun _ => none
    PKCS12_verify_mac := fun _ _ => false
    PKCS12_parse := fun _ _ => none
    file_get_pass := fun _ => none
    pem_check_suffix := fun _ _ => 0
    asn1_find_str := fun _ _ => none
    ameths := []
    d2i_PrivateKey := fun _ _ => none
    d2i_PUBKEY := fun _ => none
    set_type := fun _ => false
    set_type_str := fun _ _ => none
    param_decode := fun _ _ => false
    d2i_X509_AUX := fun _ => none
    d2i_X509 := fun _ => none
    d2i_X509_CRL := fun _ => none
    pem_decrypt := fun _ _ => none }

/-- A filesystem on which every path opens to an empty raw stream. -/
def fsAll : Str → Option File := fun _ => some { is_pem := false, recs := [] }

/-! C8: trusted-first certificate decoding -/

/-- Claim C8: the certificate handler tries the trusted-format decode
(d2i_X509_AUX) first, so whenever it succeeds the result is that
certificate no matter what the plain decode would do; with a declared
trusted-certificate name and a failing trusted decode there is no match
even though the plain decode is available; and the plain decode is used
as the fallback exactly when the declared name did not specifically claim
the trusted format. -/
theorem C8_cert_trusted_first (o : Codecs) (pem_name pem_header : Option Str)
    (blob : Option Blob) (c : Nat) (pctx : Option HCtx) :
    (cert_name_gate pem_name ≠ none → o.d2i_X509_AUX blob = some c →
      try_decode_X509Certificate o pem_name pem_header blob pctx =
        (some (OSSL_STORE_INFO.CERT c), pctx)) ∧
    (o.d2i_X509_AUX blob = none →
      try_decode_X509Certificate o (some PEM_STRING_X509_TRUSTED) pem_header
          blob pctx = (none, pctx)) ∧
    (cert_name_gate pem_name = some true → o.d2i_X509_AUX blob = none →
      try_decode_X509Certificate o pem_name pem_header blob pctx =
        ((o.d2i_X509 blob).map OSSL_STORE_INFO.CERT, pctx)) := by
  refine ⟨fun hg ha => ?_, fun ha => ?_, fun hg ha => ?_⟩
  · unfold try_decode_X509Certificate
    cases hgate : cert_name_gate pem_name with
    | none => exact absurd hgate hg
    | some b => simp [ha]
  · unfold try_decode_X509Certificate
    simp [cert_name_gate, PEM_STRING_X509_TRUSTED, ha]
  · unfold try_decode_X509Certificate
    simp [hg, ha]

/-- Witness for C8 at concrete inputs: a codec bundle whose trusted decode
succeeds with certificate 3 while the plain decode would give 4, and the
null bundle for the failing cases. -/
theorem C8_cert_trusted_first_witness :
    (try_decode_X509Certificate
        { oNull with d2i_X509_AUX := fun _ => some 3, d2i_X509 := fun _ => some 4 }
        (some PEM_STRING_X509) none (some [0]) none =
      (some (OSSL_STORE_INFO.CERT 3), none)) ∧
    (try_decode_X509Certificate { oNull with d2i_X509 := fun _ => some 4 }
        (some PEM_STRING_X509_TRUSTED) none (some [0]) none = (none, none)) ∧
    (try_decode_X509Certificate { oNull with d2i_X509 := fun _ => some 4 }
        (some PEM_STRING_X509) none (some [0]) none =
      (some (OSSL_STORE_INFO.CERT 4), none)) := by
  refine ⟨?_, ?_, ?_⟩
  · exact (C8_cert_trusted_first
      { oNull with d2i_X509_AUX := fun _ => some 3, d2i_X509 := fun _ => some 4 }
      (some PEM_STRING_X509) none (some [0]) 3 none).1 (by decide) rfl
  · exact (C8_cert_trusted_first { oNull with d2i_X509 := fun _ => some 4 }
      (some PEM_STRING_X509) none (some [0]) 0 none).2.1 rfl
  · exact (C8_cert_trusted_first { oNull with d2i_X509 := fun _ => some 4 }
      (some PEM_STRING_X509) none (some [0]) 0 none).2.2 (by decide) rfl

/-! C9: at_end characterization -/

/-- Claim C9: file_eof is true exactly when there is no pending
sticky-handler data and the stream is exhausted: with no sticky handler it
reduces to stream exhaustion, with a sticky handler whose eof predicate
reports exhaustion it reduces to stream exhaustion, and whenever the
sticky handler still has data it is false regardless of the stream. -/
theorem C9_file_eof_charact (ctx : ossl_store_loader_ctx_st)
    (h : FILE_HANDLER) :
    (ctx.last_handler = none → file_eof ctx = ctx.file.isEmpty) ∧
    (ctx.last_handler = some h → h.eof ctx.last_handler_ctx = true →
      file_eof ctx = ctx.file.isEmpty) ∧
    (ctx.last_handler = some h → h.eof ctx.last_handler_ctx = false →
      file_eof ctx = false) := by
  refine ⟨fun hn => ?_, fun hs he => ?_, fun hs he => ?_⟩
  · simp [file_eof, hn]
  · simp [file_eof, hs, he]
  · simp [file_eof, hs, he]

/-- Witness for C9: a loader holding the PKCS12 handler with one pending
object and a nonempty stream is not at end; with the pending stack drained
and the stream empty it is at end. -/
theorem C9_file_eof_charact_witness :
    (file_eof { file := [Rec.raw [0]], is_pem := false, errcnt := 0,
                last_handler := some (PKCS12_handler oNull),
                last_handler_ctx := some [OSSL_STORE_INFO.CERT 5] } = false) ∧
    (file_eof { file := [], is_pem := false, errcnt := 0,
                last_handler := some (PKCS12_handler oNull),
                last_handler_ctx := some [] } = List.isEmpty ([] : List Rec)) ∧
    (file_eof { file := [], is_pem := false, errcnt := 0,
                last_handler := none, last_handler_ctx := none } =
      List.isEmpty ([] : List Rec)) := by
  refine ⟨?_, ?_, ?_⟩
  · exact (C9_file_eof_charact _ (PKCS12_handler oNull)).2.2 rfl rfl
  · exact (C9_file_eof_charact _ (PKCS12_handler oNull)).2.1 rfl rfl
  · exact (C9_file_eof_charact _ (PKCS12_handler oNull)).1 rfl

/-! C6: locator rejection before any filesystem access -/

/-- Claim C6: for an explicit file: scheme, a locator with a nonempty
authority other than localhost is rejected with the unsupported-authority
error, and a locator whose resolved path does not begin with a slash is
rejected with the not-absolute error; both rejections hold for every
filesystem, i.e. before any attempt to open a file. -/
theorem C6_open_rejects (fs : Str → Option File) (uri r2 path : Str) :
    ((uri.take 5).map Char.toLower = "file:".toList →
      uri.drop 5 = '/' :: '/' :: r2 →
      r2.takeWhile (fun c => c ≠ '/') ≠ [] →
      r2.takeWhile (fun c => c ≠ '/') ≠ "localhost".toList →
      file_open fs uri = Except.error OpenErr.uriAuthorityUnsupported) ∧
    ((uri.take 5).map Char.toLower = "file:".toList →
      file_scheme_path uri = some path →
      path.take 1 ≠ ['/'] →
      file_open fs uri = Except.error OpenErr.pathMustBeAbsolute) := by
  constructor
  · intro hscheme hrest hne hnl
    have hnone : file_scheme_path uri = none := by
      have h10 : ¬ (r2.take 10 = ['l', 'o', 'c', 'a', 'l', 'h', 'o', 's', 't', '/']) := by
        intro h
        have hr2 : r2 = ['l', 'o', 'c', 'a', 'l', 'h', 'o', 's', 't', '/'] ++ r2.drop 10 := by
          conv_lhs => rw [← List.take_append_drop 10 r2]
          rw [h]
        rw [hr2] at hnl
        refine hnl ?_
        have : "localhost".toList = ['l', 'o', 'c', 'a', 'l', 'h', 'o', 's', 't'] := by decide
        rw [this]
        simp [List.takeWhile]
      have h1 : ¬ (r2.take 1 = ['/']) := by
        intro h
        cases hr2 : r2 with
        | nil => rw [hr2] at h; simp [List.take] at h
        | cons a t =>
          rw [hr2] at h
          simp [List.take] at h
          rw [hr2, h] at hne
          simp [List.takeWhile] at hne
      unfold file_scheme_path
      rw [hrest]
      simp [List.take, h10, h1]
    simp [file_open, hscheme, hnone]
  · intro hscheme hpath habs
    simp [file_open, hscheme, hpath, habs]

/-- Witness for C6: the locator file://evil-host/path is rejected as an
unsupported authority and file:relative as a non-absolute path, on a
filesystem that would accept every path. -/
theorem C6_open_rejects_witness :
    file_open fsAll "file://evil-host/path".toList =
      Except.error OpenErr.uriAuthorityUnsupported ∧
    file_open fsAll "file:relative".toList =
      Except.error OpenErr.pathMustBeAbsolute := by
  constructor
  · exact (C6_open_rejects fsAll "file://evil-host/path".toList
      "evil-host/path".toList []).1 (by decide) (by decide) (by decide)
      (by decide)
  · exact (C6_open_rejects fsAll "file:relative".toList []
      "relative".toList).2 (by decide) (by decide) (by decide)

/-! C7: PKCS12 matching, MAC candidate order, gateway failure -/

/-- Claim C7: on its initial call the PKCS12 handler matches only a blob
with no declared type-name whose bytes parse as PKCS12; when the MAC
verifies under the empty or the NULL passphrase the gateway is never
consulted (the outcome is the same under any two collaborator bundles
sharing the PKCS12 codecs); when both built-in candidates fail, a gateway
failure, or a MAC failure on the gateway-supplied passphrase, yields no
match and no object. -/
theorem C7_pkcs12_matching (o o' : Codecs)
    (pem_name pem_header pem_header' : Option Str) (blob : Option Blob)
    (p12 : Nat) (pass : Str) :
    (pem_name.isSome = true →
      try_decode_PKCS12 o pem_name pem_header blob none = (none, none)) ∧
    (o.d2i_PKCS12 blob = none →
      try_decode_PKCS12 o pem_name pem_header blob none = (none, none)) ∧
    (o.d2i_PKCS12 blob = some p12 →
      (o.PKCS12_verify_mac p12 (some []) = true ∨
        o.PKCS12_verify_mac p12 none = true) →
      o'.d2i_PKCS12 = o.d2i_PKCS12 →
      o'.PKCS12_verify_mac = o.PKCS12_verify_mac →
      o'.PKCS12_parse = o.PKCS12_parse →
      try_decode_PKCS12 o' pem_name pem_header' blob none =
        try_decode_PKCS12 o pem_name pem_header blob none) ∧
    (o.d2i_PKCS12 blob = some p12 →
      o.PKCS12_verify_mac p12 (some []) = false →
      o.PKCS12_verify_mac p12 none = false →
      o.file_get_pass pkcs12PromptInfo = none →
      try_decode_PKCS12 o pem_name pem_header blob none = (none, none)) ∧
    (o.d2i_PKCS12 blob = some p12 →
      o.PKCS12_verify_mac p12 (some []) = false →
      o.PKCS12_verify_mac p12 none = false →
      o.file_get_pass pkcs12PromptInfo = some pass →
      o.PKCS12_verify_mac p12 (some pass) = false →
      try_decode_PKCS12 o pem_name pem_header blob none = (none, none)) := by
  refine ⟨fun hn => ?_, fun hd => ?_, fun hd hmac hd' hm' hp' => ?_,
    fun hd h1 h2 hg => ?_, fun hd h1 h2 hg hup => ?_⟩
  · cases pem_name with
    | none => simp at hn
    | some n => simp [try_decode_PKCS12]
  · cases pem_name with
    | none => simp [try_decode_PKCS12, hd]
    | some n => simp [try_decode_PKCS12]
  · cases pem_name with
    | none =>
      simp only [try_decode_PKCS12, Option.isSome_none, hd, hd', hm', hp']
      rcases hmac with h | h <;> simp [h]
    | some n => simp [try_decode_PKCS12]
  · cases pem_name with
    | none => simp [try_decode_PKCS12, hd, h1, h2, hg]
    | some n => simp [try_decode_PKCS12]
  · cases pem_name with
    | none => simp [try_decode_PKCS12, hd, h1, h2, hg, hup]
    | some n => simp [try_decode_PKCS12]

/-- Witness for C7 at concrete inputs: a named blob never matches, a blob
that does not d2i never matches, a bundle whose MAC verifies with the
empty passphrase decodes identically whether or not a gateway is present,
and both gateway-failure cases yield no match. -/
theorem C7_pkcs12_matching_witness :
    (try_decode_PKCS12 oNull (some PEM_STRING_X509) none (some [0]) none =
      (none, none)) ∧
    (try_decode_PKCS12 oNull none none (some [0]) none = (none, none)) ∧
    (try_decode_PKCS12
        { oNull with d2i_PKCS12 := fun _ => some 5,
                     PKCS12_verify_mac := fun _ pw => pw = some [],
                     PKCS12_parse := fun _ _ => some (7, 8, [9]),
                     file_get_pass := fun _ => some ['x'] }
        none none (some [0]) none =
      try_decode_PKCS12
        { oNull with d2i_PKCS12 := fun _ => some 5,
                     PKCS12_verify_mac := fun _ pw => pw = some [],
                     PKCS12_parse := fun _ _ => some (7, 8, [9]) }
        none none (some [0]) none) ∧
    (try_decode_PKCS12 { oNull with d2i_PKCS12 := fun _ => some 5 }
        none none (some [0]) none = (none, none)) ∧
    (try_decode_PKCS12
        { oNull with d2i_PKCS12 := fun _ => some 5,
                     file_get_pass := fun _ => some ['x'] }
        none none (some [0]) none = (none, none)) := by
  refine ⟨?_, ?_, ?_, ?_, ?_⟩
  · exact (C7_pkcs12_matching oNull oNull (some PEM_STRING_X509) none none
      (some [0]) 0 []).1 rfl
  · exact (C7_pkcs12_matching oNull oNull none none none
      (some [0]) 0 []).2.1 rfl
  · exact (C7_pkcs12_matching
      { oNull with d2i_PKCS12 := fun _ => some 5,
                   PKCS12_verify_mac := fun _ pw => pw = some [],
                   PKCS12_parse := fun _ _ => some (7, 8, [9]) }
      { oNull with d2i_PKCS12 := fun _ => some 5,
                   PKCS12_verify_mac := fun _ pw => pw = some [],
                   PKCS12_parse := fun _ _ => some (7, 8, [9]),
                   file_get_pass := fun _ => some ['x'] }
      none none none (some [0]) 5 []).2.2.1 rfl (Or.inl (by decide)) rfl rfl rfl
  · exact (C7_pkcs12_matching { oNull with d2i_PKCS12 := fun _ => some 5 }
      oNull none none none (some [0]) 5 []).2.2.2.1 rfl rfl rfl rfl
  · exact (C7_pkcs12_matching
      { oNull with d2i_PKCS12 := fun _ => some 5,
                   file_get_pass := fun _ => some ['x'] }
      oNull none none none (some [0]) 5 ['x']).2.2.2.2 rfl rfl rfl rfl rfl

/-! C2: the embedded-wrapper unwrap loop -/

/-- A handler implementing the FILE_HANDLER interface that echoes its
input blob unchanged as an EMBEDDED wrapper: the non-decreasing unwrap the
spec warns about. -/
def echo_handler : FILE_HANDLER :=
  { name := "echo".toList
    try_decode := fun pn _ blob _ =>
      (some (OSSL_STORE_INFO.EMBEDDED pn (blob.getD [])), none)
    eof := fun _ => true
    destroy_ctx := fun _ => none
    repeatable := false }

/-- An empty opened loader, used as the dispatch context. -/
def emptyLoaderCtx : ossl_store_loader_ctx_st :=
  { file := [], is_pem := false, errcnt := 0,
    last_handler := none, last_handler_ctx := none }

/-- Counterexample to claim C2: with the echoing handler, the handler loop
accepts the blob [0, 1] and produces an EMBEDDED wrapper whose inner blob
is the same [0, 1] — a non-decreasing unwrap — yet the engine raises no
error during the pass and re-dispatches: the unwrap loop is still running
after 100 passes instead of failing with a hard decode error. -/
theorem C2_unwrap_counterexample :
    (file_load_try_decode_pass none none (some [0, 1]) [echo_handler]
        initDecodeAcc).result =
      some (OSSL_STORE_INFO.EMBEDDED none [0, 1]) ∧
    (file_load_try_decode_pass none none (some [0, 1]) [echo_handler]
        initDecodeAcc).errs = [] ∧
    file_load_try_decode [echo_handler] 100 emptyLoaderCtx none none
      (some [0, 1]) [] = none := by
  refine ⟨rfl, rfl, rfl⟩

/-- Objects the registered handlers can return: everything except the
EMBEDDED wrapper. -/
def notEmbedded : OSSL_STORE_INFO → Bool
  | OSSL_STORE_INFO.EMBEDDED _ _ => false
  | _ => true

/-- Every registered handler, probed with a fresh NULL handler_ctx, only
ever produces a non-EMBEDDED object. -/
lemma registry_notEmbedded (o : Codecs) :
    ∀ h ∈ file_handlers o, ∀ pn ph b r c',
      h.try_decode pn ph b none = (some r, c') → notEmbedded r = true := by
  intro h hmem pn ph b r c' heq
  simp only [file_handlers, List.mem_cons, List.mem_singleton] at hmem
  rcases hmem with rfl | rfl | rfl | rfl | rfl | rfl | h
  · simp only [PKCS12_handler] at heq
    unfold try_decode_PKCS12 at heq
    rcases pn with _ | n
    · rcases hd : o.d2i_PKCS12 b with _ | p12
      · simp [hd] at heq
      · simp only [Option.isSome_none, if_false, hd] at heq
        rcases hpc : (if o.PKCS12_verify_mac p12 (some []) ||
            o.PKCS12_verify_mac p12 none then some ([] : Str)
          else
            match o.file_get_pass pkcs12PromptInfo with
            | none => none
            | some pass =>
              if o.PKCS12_verify_mac p12 (some pass) then some pass
              else none) with _ | pass
        · rw [hpc] at heq; simp at heq
        · rw [hpc] at heq
          rcases hp : o.PKCS12_parse p12 pass with _ | ⟨pk, ct, ch⟩
          · simp [hp] at heq
          · simp [hp] at heq
            rcases heq with ⟨heq, -⟩
            simp [← heq, notEmbedded]
    · simp at heq
  · simp only [X509Certificate_handler] at heq
    unfold try_decode_X509Certificate at heq
    rcases hg : cert_name_gate pn with _ | it
    · simp [hg] at heq
    · simp only [hg] at heq
      rcases ha : o.d2i_X509_AUX b with _ | ct
      · simp only [ha] at heq
        rcases it with _ | _
        · simp at heq
        · rcases hx : o.d2i_X509 b with _ | ct2
          · simp [hx] at heq
          · simp [hx] at heq
            rcases heq with ⟨heq, -⟩
            simp [← heq, notEmbedded]
      · simp [ha] at heq
        rcases heq with ⟨heq, -⟩
        simp [← heq, notEmbedded]
  · simp only [X509CRL_handler] at heq
    unfold try_decode_X509CRL at heq
    rcases pn with _ | n
    · rcases hc : o.d2i_X509_CRL b with _ | v
      · simp [hc] at heq
      · simp [hc] at heq
        rcases heq with ⟨heq, -⟩
        simp [← heq, notEmbedded]
    · by_cases hn : n = PEM_STRING_X509_CRL
      · rcases hc : o.d2i_X509_CRL b with _ | v
        · simp [hn, hc] at heq
        · simp [hn, hc] at heq
          rcases heq with ⟨heq, -⟩
          simp [← heq, notEmbedded]
      · simp [hn] at heq
  · simp only [params_handler] at heq
    unfold try_decode_params at heq
    rcases hpk : (match pn with
      | some n =>
        let slen := o.pem_check_suffix n "PARAMETERS".toList
        if slen > 0 then
          match o.set_type_str n slen with
          | some am =>
            if am.has_param_decode && o.param_decode am.pkey_id b
            then some am.pkey_id else none
          | none => none
        else none
      | none => findParams o b o.ameths) with _ | v
    · rw [hpk] at heq; simp at heq
    · rw [hpk] at heq
      simp at heq
      rcases heq with ⟨heq, -⟩
      simp [← heq, notEmbedded]
  · simp only [PUBKEY_handler] at heq
    unfold try_decode_PUBKEY at heq
    rcases pn with _ | n
    · rcases hc : o.d2i_PUBKEY b with _ | v
      · simp [hc] at heq
      · simp [hc] at heq
        rcases heq with ⟨heq, -⟩
        simp [← heq, notEmbedded]
    · by_cases hn : n = PEM_STRING_PUBLIC
      · rcases hc : o.d2i_PUBKEY b with _ | v
        · simp [hn, hc] at heq
        · simp [hn, hc] at heq
          rcases heq with ⟨heq, -⟩
          simp [← heq, notEmbedded]
      · simp [hn] at heq
  · simp only [PrivateKey_handler] at heq
    unfold try_decode_PrivateKey at heq
    rcases hpk : (match pn with
      | some n =>
        let slen := o.pem_check_suffix n "PRIVATE KEY".toList
        if slen > 0 then
          match o.asn1_find_str n slen with
          | some am => o.d2i_PrivateKey am.pkey_id b
          | none => none
        else none
      | none => findPKey o b o.ameths) with _ | v
    · rw [hpk] at heq; simp at heq
    · rw [hpk] at heq
      simp at heq
      rcases heq with ⟨heq, -⟩
      simp [← heq, notEmbedded]
  · cases h

/-- The handler loop only ever produces results that some handler in the
table produced: if every handler in the table yields non-EMBEDDED objects,
so does the loop. -/
lemma pass_notEmbedded (pn ph : Option Str) (b : Option Blob)
    (hs : List FILE_HANDLER)
    (hh : ∀ h ∈ hs, ∀ pn2 ph2 b2 r c',
      h.try_decode pn2 ph2 b2 none = (some r, c') → notEmbedded r = true)
    (acc : DecodeAcc)
    (hacc : ∀ r, acc.result = some r → notEmbedded r = true) :
    ∀ r, (file_load_try_decode_pass pn ph b hs acc).result = some r →
      notEmbedded r = true := by
  induction hs generalizing acc with
  | nil => simpa [file_load_try_decode_pass] using hacc
  | cons h rest ih =>
    intro r hr
    rw [file_load_try_decode_pass] at hr
    refine ih (fun g hg => hh g (List.mem_cons_of_mem h hg)) _ ?_ r hr
    intro r2 hr2
    rcases htd : h.try_decode pn ph b none with ⟨res, c0⟩
    rcases res with _ | r0
    · rw [htd] at hr2
      simp at hr2
      exact hacc r2 hr2
    · rw [htd] at hr2
      by_cases hmc : acc.matchcount + 1 = 1
      · simp only [hmc, if_true] at hr2
        simp at hr2
        rw [← hr2]
        exact hh h (List.mem_cons_self h rest) pn ph b r0 c0 htd
      · simp [hmc] at hr2

/-- The dispatch step only edits the error queue and the sticky fields:
its result is the handler loop's result. -/
lemma step_result_eq (hs : List FILE_HANDLER)
    (ctx : ossl_store_loader_ctx_st) (pn ph : Option Str)
    (b : Option Blob) :
    (file_load_try_decode_step hs ctx pn ph b).2.result =
      (file_load_try_decode_pass pn ph b hs initDecodeAcc).result := by
  unfold file_load_try_decode_step
  dsimp only
  repeat' split
  all_goals simp

/-- Amended claim C2: the engine re-dispatches any EMBEDDED result with no
strict-decrease guard, but no registered handler ever produces one, so on
the actual handler table the unwrap loop finishes within its very first
pass on every input. -/
theorem C2_registry_unwrap_terminates (o : Codecs) (fuel : Nat)
    (ctx : ossl_store_loader_ctx_st) (pem_name pem_header : Option Str)
    (blob : Option Blob) (errAcc : List StoreErr) :
    (file_load_try_decode (file_handlers o) (fuel + 1) ctx pem_name
        pem_header blob errAcc).isSome = true := by
  show (file_load_try_decode (file_handlers o) (Nat.succ fuel) ctx pem_name
      pem_header blob errAcc).isSome = true
  rw [file_load_try_decode]
  rcases hstep : file_load_try_decode_step (file_handlers o) ctx pem_name
      pem_header blob with ⟨ctx2, acc⟩
  have hres_eq : acc.result =
      (file_load_try_decode_pass pem_name pem_header blob (file_handlers o)
        initDecodeAcc).result := by
    rw [← step_result_eq (file_handlers o) ctx pem_name pem_header blob,
      hstep]
  rcases hres : acc.result with _ | r
  · simp [hres]
  · have hne : notEmbedded r = true := by
      refine pass_notEmbedded pem_name pem_header blob (file_handlers o)
        (registry_notEmbedded o) initDecodeAcc ?_ r ?_
      · intro r2 hr2
        simp [initDecodeAcc] at hr2
      · rw [← hres_eq, hres]
    cases r with
    | EMBEDDED a b2 => simp [notEmbedded] at hne
    | PKEY v => simp [hres]
    | CERT v => simp [hres]
    | CRL v => simp [hres]
    | PARAMS v => simp [hres]

/-! C4: sticky handler first, then the sticky error state -/

/-- Claim C4: a load first asks the sticky handler for the next object
from its existing state and returns it unchanged apart from the updated
handler context — without touching the stream or the error counter, even
when the loader is errored; the sticky state is torn down exactly when
the handler yields nothing; and only then is the sticky error state
consulted: a nonzero error counter makes load return no object with the
stream untouched. -/
theorem C4_load_sticky_first (o : Codecs) (dfuel : Nat)
    (ctx : ossl_store_loader_ctx_st) (h : FILE_HANDLER)
    (r : OSSL_STORE_INFO) (c' : Option HCtx) :
    (ctx.last_handler = some h →
      h.try_decode none none none ctx.last_handler_ctx = (some r, c') →
      file_load o dfuel ctx =
        some ({ ctx with last_handler_ctx := c' }, some r, [])) ∧
    (ctx.last_handler = some h →
      h.try_decode none none none ctx.last_handler_ctx = (none, c') →
      (file_load_try_repeat ctx).1.last_handler = none ∧
        (file_load_try_repeat ctx).1.last_handler_ctx = none) ∧
    (ctx.last_handler = some h →
      h.try_decode none none none ctx.last_handler_ctx = (none, c') →
      0 < ctx.errcnt →
      file_load o dfuel ctx =
        some ({ ctx with last_handler := none, last_handler_ctx := none },
          none, [])) ∧
    (ctx.last_handler = none → 0 < ctx.errcnt →
      file_load o dfuel ctx = some (ctx, none, [])) := by
  refine ⟨fun hh ht => ?_, fun hh ht => ?_, fun hh ht he => ?_,
    fun hh he => ?_⟩
  · simp [file_load, file_load_try_repeat, hh, ht]
  · simp [file_load_try_repeat, hh, ht]
  · simp [file_load, file_load_try_repeat, file_error, hh, ht, he]
  · simp [file_load, file_load_try_repeat, file_error, hh, he]

/-- Witness for C4: a loader holding the PKCS12 handler with one pending
certificate returns it untouched even though the loader is errored and
the stream still holds a record; the drained variant tears the sticky
state down; and an errored loader with no sticky state returns nothing
immediately. -/
theorem C4_load_sticky_first_witness :
    (file_load oNull 1
        { file := [Rec.bad], is_pem := false, errcnt := 3,
          last_handler := some (PKCS12_handler oNull),
          last_handler_ctx := some [OSSL_STORE_INFO.CERT 5] } =
      some ({ file := [Rec.bad], is_pem := false, errcnt := 3,
              last_handler := some (PKCS12_handler oNull),
              last_handler_ctx := some [] },
        some (OSSL_STORE_INFO.CERT 5), [])) ∧
    ((file_load_try_repeat
        { file := [Rec.bad], is_pem := false, errcnt := 3,
          last_handler := some (PKCS12_handler oNull),
          last_handler_ctx := some [] }).1.last_handler = none ∧
      (file_load_try_repeat
        { file := [Rec.bad], is_pem := false, errcnt := 3,
          last_handler := some (PKCS12_handler oNull),
          last_handler_ctx := some [] }).1.last_handler_ctx = none) ∧
    (file_load oNull 1
        { file := [Rec.bad], is_pem := false, errcnt := 3,
          last_handler := some (PKCS12_handler oNull),
          last_handler_ctx := some [] } =
      some ({ file := [Rec.bad], is_pem := false, errcnt := 3,
              last_handler := none, last_handler_ctx := none }, none, [])) ∧
    (file_load oNull 1
        { file := [Rec.bad], is_pem := false, errcnt := 3,
          last_handler := none, last_handler_ctx := none } =
      some ({ file := [Rec.bad], is_pem := false, errcnt := 3,
              last_handler := none, last_handler_ctx := none }, none, [])) := by
  refine ⟨?_, ?_, ?_, ?_⟩
  · exact (C4_load_sticky_first oNull 1 _ (PKCS12_handler oNull)
      (OSSL_STORE_INFO.CERT 5) (some [])).1 rfl rfl
  · exact (C4_load_sticky_first oNull 1 _ (PKCS12_handler oNull)
      (OSSL_STORE_INFO.CERT 5) (some [])).2.1 rfl rfl
  · exact (C4_load_sticky_first oNull 1 _ (PKCS12_handler oNull)
      (OSSL_STORE_INFO.CERT 5) (some [])).2.2.1 rfl rfl (by decide)
  · exact (C4_load_sticky_first oNull 1 _ (PKCS12_handler oNull)
      (OSSL_STORE_INFO.CERT 5) (some [])).2.2.2 rfl (by decide)

/-! C1: ambiguity discards everything and fails the load -/

/-- In the handler loop, as soon as two or more handlers have matched,
the candidate result and the surviving handler context have both been
discarded. -/
lemma pass_ambiguous (pn ph : Option Str) (b : Option Blob)
    (hs : List FILE_HANDLER) (acc : DecodeAcc)
    (hacc : 2 ≤ acc.matchcount → acc.result = none ∧ acc.handler_ctx = none) :
    2 ≤ (file_load_try_decode_pass pn ph b hs acc).matchcount →
      (file_load_try_decode_pass pn ph b hs acc).result = none ∧
      (file_load_try_decode_pass pn ph b hs acc).handler_ctx = none := by
  induction hs generalizing acc with
  | nil => simpa [file_load_try_decode_pass] using hacc
  | cons h rest ih =>
    rw [file_load_try_decode_pass]
    refine ih _ ?_
    rcases htd : h.try_decode pn ph b none with ⟨res, c0⟩
    rcases res with _ | r0 <;> simp only [htd]
    · exact hacc
    · by_cases hmc : acc.matchcount + 1 = 1
      · simp [hmc]
      · simp [hmc]

/-- The matchcount reported by the dispatch step is the handler loop's. -/
lemma step_matchcount_eq (hs : List FILE_HANDLER)
    (ctx : ossl_store_loader_ctx_st) (pn ph : Option Str)
    (b : Option Blob) :
    (file_load_try_decode_step hs ctx pn ph b).2.matchcount =
      (file_load_try_decode_pass pn ph b hs initDecodeAcc).matchcount := by
  unfold file_load_try_decode_step
  dsimp only
  repeat' split
  all_goals simp

/-- When the handler loop found two or more matches, the dispatch step
reports no result, raises the ambiguous-content-type error, touches
neither the stream nor the error counter, and leaves no live handler
context behind. -/
lemma step_ambiguous (hs : List FILE_HANDLER)
    (ctx : ossl_store_loader_ctx_st) (pn ph : Option Str) (b : Option Blob)
    (h2 : 2 ≤ (file_load_try_decode_pass pn ph b hs initDecodeAcc).matchcount) :
    (file_load_try_decode_step hs ctx pn ph b).2.result = none ∧
    StoreErr.ambiguousContentType ∈
      (file_load_try_decode_step hs ctx pn ph b).2.errs ∧
    (file_load_try_decode_step hs ctx pn ph b).1.file = ctx.file ∧
    (file_load_try_decode_step hs ctx pn ph b).1.errcnt = ctx.errcnt ∧
    (file_load_try_decode_step hs ctx pn ph b).1.is_pem = ctx.is_pem ∧
    ((file_load_try_decode_step hs ctx pn ph b).1.last_handler_ctx = none ∨
      (file_load_try_decode_step hs ctx pn ph b).1.last_handler_ctx =
        ctx.last_handler_ctx) := by
  obtain ⟨hr, hc⟩ :=
    pass_ambiguous pn ph b hs initDecodeAcc (by simp [initDecodeAcc]) h2
  have hgt : 1 < (file_load_try_decode_pass pn ph b hs initDecodeAcc).matchcount := by
    omega
  have hne : ¬ ((file_load_try_decode_pass pn ph b hs initDecodeAcc).matchcount = 0) := by
    omega
  unfold file_load_try_decode_step
  rcases hh0 : (file_load_try_decode_pass pn ph b hs initDecodeAcc).handler0
    with _ | h0
  · simp [hr, hc, hgt, hne, hh0]
  · by_cases hrep : h0.repeatable = true
    · simp [hr, hc, hgt, hne, hh0, hrep]
    · simp [hr, hc, hgt, hne, hh0, hrep]

def loadInfo :
    Option (ossl_store_loader_ctx_st × Option OSSL_STORE_INFO × List StoreErr) →
    Option OSSL_STORE_INFO
  | some (_, r, _) => r
  | none => none

def loadCtx :
    Option (ossl_store_loader_ctx_st × Option OSSL_STORE_INFO × List StoreErr) →
    Option ossl_store_loader_ctx_st
  | some (c, _, _) => some c
  | none => none

def loadErrs :
    Option (ossl_store_loader_ctx_st × Option OSSL_STORE_INFO × List StoreErr) →
    List StoreErr
  | some (_, _, e) => e
  | none => []

/-- Claim C1: on a fresh raw-mode loader whose next blob is matched by
two or more handlers, load completes, returns no object, consumes exactly
that one blob from the stream and never reads the following ones, raises
the ambiguous-content-type error, records no read error, and holds no
handler private state. -/
theorem C1_ambiguity_discards_all (o : Codecs) (dfuel : Nat) (d : Blob)
    (rest : List Rec) (ctx : ossl_store_loader_ctx_st)
    (hf : ctx.file = Rec.raw d :: rest)
    (hp : ctx.is_pem = false)
    (he : ctx.errcnt = 0)
    (hh : ctx.last_handler = none)
    (hc : ctx.last_handler_ctx = none)
    (h2 : 2 ≤ (file_load_try_decode_pass none none (some d)
        (file_handlers o) initDecodeAcc).matchcount) :
    (file_load o (dfuel + 1) ctx).isSome = true ∧
    loadInfo (file_load o (dfuel + 1) ctx) = none ∧
    (loadCtx (file_load o (dfuel + 1) ctx)).map (fun c => c.file) = some rest ∧
    (loadCtx (file_load o (dfuel + 1) ctx)).map (fun c => c.errcnt) = some 0 ∧
    (loadCtx (file_load o (dfuel + 1) ctx)).map
      (fun c => c.last_handler_ctx.isNone) = some true ∧
    StoreErr.ambiguousContentType ∈ loadErrs (file_load o (dfuel + 1) ctx) := by
  obtain ⟨cf, cp, ce, clh, clc⟩ := ctx
  simp only at hf hp he hh hc
  subst hf hp he hh hc
  have hstepA := step_ambiguous (file_handlers o)
    { file := rest, is_pem := false, errcnt := 0, last_handler := none,
      last_handler_ctx := none } none none (some d) h2
  have hstepM := step_matchcount_eq (file_handlers o)
    { file := rest, is_pem := false, errcnt := 0, last_handler := none,
      last_handler_ctx := none } none none (some d)
  rcases hstep : file_load_try_decode_step (file_handlers o)
      { file := rest, is_pem := false, errcnt := 0, last_handler := none,
        last_handler_ctx := none } none none (some d) with ⟨ctx2, acc⟩
  rw [hstep] at hstepA hstepM
  obtain ⟨hr, hmem, hfile, herrc, hpem, hlc⟩ := hstepA
  simp only at hr hmem hfile herrc hpem hlc hstepM
  have hdec : file_load_try_decode (file_handlers o) (dfuel + 1)
      { file := rest, is_pem := false, errcnt := 0, last_handler := none,
        last_handler_ctx := none } none none (some d) [] =
      some (ctx2, none, acc.matchcount, acc.errs) := by
    show file_load_try_decode (file_handlers o) (Nat.succ dfuel)
      { file := rest, is_pem := false, errcnt := 0, last_handler := none,
        last_handler_ctx := none } none none (some d) [] = _
    rw [file_load_try_decode, hstep]
    simp [hr]
  have hmcInt : ¬ ((acc.matchcount : Int) = 0) := by
    rw [hstepM]
    omega
  have hloop : file_load_loop (file_handlers o) o (dfuel + 1)
      ((Rec.raw d :: rest).length + 1)
      { file := Rec.raw d :: rest, is_pem := false, errcnt := 0,
        last_handler := none, last_handler_ctx := none } none (-1) [] =
      some (ctx2, none, (acc.matchcount : Int), acc.errs) := by
    show file_load_loop (file_handlers o) o (dfuel + 1)
      (Nat.succ (rest.length + 1))
      { file := Rec.raw d :: rest, is_pem := false, errcnt := 0,
        last_handler := none, last_handler_ctx := none } none (-1) [] = _
    rw [file_load_loop]
    simp only [Bool.false_eq_true, if_false, file_read_asn1]
    rw [hdec]
    simp [hmcInt]
  have hload : file_load o (dfuel + 1)
      { file := Rec.raw d :: rest, is_pem := false, errcnt := 0,
        last_handler := none, last_handler_ctx := none } =
      some (ctx2, none, acc.errs) := by
    unfold file_load
    rw [file_load_try_repeat]
    simp only [file_error, decide_eq_true_eq]
    rw [if_neg (by omega)]
    rw [hloop]
    have hgt1 : (acc.matchcount : Int) > 1 := by
      rw [hstepM]
      exact_mod_cast (by omega :
        1 < (file_load_try_decode_pass none none (some d) (file_handlers o)
          initDecodeAcc).matchcount)
    simp [hgt1]
  rw [hload]
  refine ⟨rfl, rfl, ?_, ?_, ?_, ?_⟩
  · simp [loadCtx, hfile]
  · simp [loadCtx, herrc]
  · rcases hlc with hlc | hlc
    · simp [loadCtx, hlc]
    · simp [loadCtx, hlc]
  · simpa [loadErrs] using hmem

/-- A collaborator bundle making the same raw bytes decode both as a
trusted certificate and as a CRL: two handlers match every unnamed blob. -/
def oAmb : Codecs :=
  { oNull with d2i_X509_AUX := fun _ => some 1,
               d2i_X509_CRL := fun _ => some 2 }

def ctxAmb : ossl_store_loader_ctx_st :=
  { file := [Rec.raw [0], Rec.raw [1]], is_pem := false, errcnt := 0,
    last_handler := none, last_handler_ctx := none }

/-- Witness for C1: under oAmb, a load on a two-blob raw stream returns
no object, leaves the second blob unread, records no error, raises the
ambiguity error and holds no handler state. -/
theorem C1_ambiguity_discards_all_witness :
    (file_load oAmb 1 ctxAmb).isSome = true ∧
    loadInfo (file_load oAmb 1 ctxAmb) = none ∧
    (loadCtx (file_load oAmb 1 ctxAmb)).map (fun c => c.file) =
      some [Rec.raw [1]] ∧
    (loadCtx (file_load oAmb 1 ctxAmb)).map (fun c => c.errcnt) = some 0 ∧
    (loadCtx (file_load oAmb 1 ctxAmb)).map
      (fun c => c.last_handler_ctx.isNone) = some true ∧
    StoreErr.ambiguousContentType ∈ loadErrs (file_load oAmb 1 ctxAmb) := by
  exact C1_ambiguity_discards_all oAmb 0 [0] [Rec.raw [1]] ctxAmb rfl rfl rfl
    rfl rfl (by decide)

/-! C3: bundle iteration -/

/-- Draining a sticky PKCS12 stack: with an exhausted stream, a stack of
k pending objects yields exactly those k objects over k loads, then one
load yielding nothing, after which both sticky fields are cleared. -/
lemma pkcs12_drain (o : Codecs) (dfuel : Nat) (stack : HCtx) (p : Bool) :
    loadMany o dfuel (stack.length + 1)
      { file := [], is_pem := p, errcnt := 0,
        last_handler := some (PKCS12_handler o),
        last_handler_ctx := some stack } =
      some (stack.map some ++ [none],
        { file := [], is_pem := p, errcnt := 0,
          last_handler := none, last_handler_ctx := none }) := by
  induction stack with
  | nil => cases p <;> rfl
  | cons i rest ih =>
    show loadMany o dfuel (Nat.succ (rest.length + 1))
      { file := [], is_pem := p, errcnt := 0,
        last_handler := some (PKCS12_handler o),
        last_handler_ctx := some (i :: rest) } = _
    rw [loadMany]
    have h1 : file_load o dfuel
        { file := [], is_pem := p, errcnt := 0,
          last_handler := some (PKCS12_handler o),
          last_handler_ctx := some (i :: rest) } =
        some ({ file := [], is_pem := p, errcnt := 0,
                last_handler := some (PKCS12_handler o),
                last_handler_ctx := some rest }, some i, []) := rfl
    rw [h1]
    dsimp only
    rw [ih]
    simp

/-- Claim C3: a raw stream holding one PKCS12 bundle of one private key,
one end-entity certificate and N chain certificates yields, over
successive loads, exactly the key, then the end-entity certificate, then
each chain certificate, then an empty load; afterwards the sticky
iteration state is destroyed. -/
theorem C3_pkcs12_bundle (o : Codecs) (dfuel : Nat) (b : Blob)
    (p12 pkey cert : Nat) (chain : List Nat)
    (h1 : o.d2i_PKCS12 (some b) = some p12)
    (h2 : o.PKCS12_verify_mac p12 (some []) = true)
    (h3 : o.PKCS12_parse p12 [] = some (pkey, cert, chain))
    (h4 : o.d2i_X509_AUX (some b) = none)
    (h5 : o.d2i_X509 (some b) = none)
    (h6 : o.d2i_X509_CRL (some b) = none)
    (h7 : o.d2i_PUBKEY (some b) = none)
    (h8 : o.ameths = []) :
    loadMany o (dfuel + 1) (chain.length + 3)
      { file := [Rec.raw b], is_pem := false, errcnt := 0,
        last_handler := none, last_handler_ctx := none } =
      some (some (OSSL_STORE_INFO.PKEY pkey) ::
          some (OSSL_STORE_INFO.CERT cert) ::
          chain.map (fun c => some (OSSL_STORE_INFO.CERT c)) ++ [none],
        { file := [], is_pem := false, errcnt := 0,
          last_handler := none, last_handler_ctx := none }) := by
  have hpass : file_load_try_decode_pass none none (some b) (file_handlers o)
      initDecodeAcc =
      { result := some (OSSL_STORE_INFO.PKEY pkey), matchcount := 1,
        handler0 := some (PKCS12_handler o),
        handler_ctx := some (OSSL_STORE_INFO.CERT cert
          :: chain.map OSSL_STORE_INFO.CERT),
        errs := [StoreErr.isNotA "X509Certificate".toList,
          StoreErr.isNotA "X509CRL".toList, StoreErr.isNotA "params".toList,
          StoreErr.isNotA "PUBKEY".toList,
          StoreErr.isNotA "PrivateKey".toList] } := by
    simp [file_load_try_decode_pass, file_handlers, PKCS12_handler,
      try_decode_PKCS12, h1, h2, h3, X509Certificate_handler,
      try_decode_X509Certificate, cert_name_gate, h4, h5, X509CRL_handler,
      try_decode_X509CRL, h6, params_handler, try_decode_params, findParams,
      h8, PUBKEY_handler, try_decode_PUBKEY, h7, PrivateKey_handler,
      try_decode_PrivateKey, findPKey, initDecodeAcc]
  have hstep : file_load_try_decode_step (file_handlers o)
      { file := [], is_pem := false, errcnt := 0, last_handler := none,
        last_handler_ctx := none } none none (some b) =
      ({ file := [], is_pem := false, errcnt := 0,
         last_handler := some (PKCS12_handler o),
         last_handler_ctx := some (OSSL_STORE_INFO.CERT cert
           :: chain.map OSSL_STORE_INFO.CERT) },
       { result := some (OSSL_STORE_INFO.PKEY pkey), matchcount := 1,
         handler0 := some (PKCS12_handler o),
         handler_ctx := some (OSSL_STORE_INFO.CERT cert
           :: chain.map OSSL_STORE_INFO.CERT),
         errs := [StoreErr.isNotA "X509Certificate".toList,
           StoreErr.isNotA "X509CRL".toList, StoreErr.isNotA "params".toList,
           StoreErr.isNotA "PUBKEY".toList,
           StoreErr.isNotA "PrivateKey".toList] }) := by
    unfold file_load_try_decode_step
    rw [hpass]
    simp [PKCS12_handler]
  have hdec : file_load_try_decode (file_handlers o) (dfuel + 1)
      { file := [], is_pem := false, errcnt := 0, last_handler := none,
        last_handler_ctx := none } none none (some b) [] =
      some ({ file := [], is_pem := false, errcnt := 0,
              last_handler := some (PKCS12_handler o),
              last_handler_ctx := some (OSSL_STORE_INFO.CERT cert
                :: chain.map OSSL_STORE_INFO.CERT) },
        some (OSSL_STORE_INFO.PKEY pkey), 1, []) := by
    show file_load_try_decode (file_handlers o) (Nat.succ dfuel)
      { file := [], is_pem := false, errcnt := 0, last_handler := none,
        last_handler_ctx := none } none none (some b) [] = _
    rw [file_load_try_decode, hstep]
  have hload1 : file_load o (dfuel + 1)
      { file := [Rec.raw b], is_pem := false, errcnt := 0,
        last_handler := none, last_handler_ctx := none } =
      some ({ file := [], is_pem := false, errcnt := 0,
              last_handler := some (PKCS12_handler o),
              last_handler_ctx := some (OSSL_STORE_INFO.CERT cert
                :: chain.map OSSL_STORE_INFO.CERT) },
        some (OSSL_STORE_INFO.PKEY pkey), []) := by
    unfold file_load
    rw [file_load_try_repeat]
    simp only [file_error, decide_eq_true_eq]
    rw [if_neg (by omega)]
    have hloop : file_load_loop (file_handlers o) o (dfuel + 1)
        (([Rec.raw b] : List Rec).length + 1)
        { file := [Rec.raw b], is_pem := false, errcnt := 0,
          last_handler := none, last_handler_ctx := none } none (-1) [] =
        some ({ file := [], is_pem := false, errcnt := 0,
                last_handler := some (PKCS12_handler o),
                last_handler_ctx := some (OSSL_STORE_INFO.CERT cert
                  :: chain.map OSSL_STORE_INFO.CERT) },
          some (OSSL_STORE_INFO.PKEY pkey), 1, []) := by
      show file_load_loop (file_handlers o) o (dfuel + 1) (Nat.succ 1)
        { file := [Rec.raw b], is_pem := false, errcnt := 0,
          last_handler := none, last_handler_ctx := none } none (-1) [] = _
      rw [file_load_loop]
      simp only [Bool.false_eq_true, if_false, file_read_asn1]
      rw [hdec]
      simp
    rw [hloop]
    simp
  show loadMany o (dfuel + 1) (Nat.succ (chain.length + 2))
    { file := [Rec.raw b], is_pem := false, errcnt := 0,
      last_handler := none, last_handler_ctx := none } = _
  rw [loadMany, hload1]
  have hdrain := pkcs12_drain o (dfuel + 1)
    (OSSL_STORE_INFO.CERT cert :: chain.map OSSL_STORE_INFO.CERT) false
  have hlen : (OSSL_STORE_INFO.CERT cert
      :: chain.map OSSL_STORE_INFO.CERT).length + 1 = chain.length + 2 := by
    simp
  rw [hlen] at hdrain
  dsimp only
  rw [hdrain]
  simp

/-- A collaborator bundle holding one parseable PKCS12 container: key 7,
end-entity certificate 8 and chain certificates 9 and 10, MAC-verified by
the empty passphrase. -/
def oBundle : Codecs :=
  { oNull with
    d2i_PKCS12 := fun b => if b = some [0] then some 5 else none
    PKCS12_verify_mac := fun p pw => p = 5 && pw = some []
    PKCS12_parse := fun p pw =>
      if p = 5 && pw = [] then some (7, 8, [9, 10]) else none }

/-- Witness for C3: the two-chain-certificate bundle yields the key, the
end-entity certificate, both chain certificates, then exhaustion, with
the sticky state destroyed. -/
theorem C3_pkcs12_bundle_witness :
    loadMany oBundle 1 5
      { file := [Rec.raw [0]], is_pem := false, errcnt := 0,
        last_handler := none, last_handler_ctx := none } =
      some ([some (OSSL_STORE_INFO.PKEY 7), some (OSSL_STORE_INFO.CERT 8),
          some (OSSL_STORE_INFO.CERT 9), some (OSSL_STORE_INFO.CERT 10),
          none],
        { file := [], is_pem := false, errcnt := 0,
          last_handler := none, last_handler_ctx := none }) := by
  exact C3_pkcs12_bundle oBundle 0 [0] 5 7 8 [9, 10] (by decide) (by decide)
    (by decide) rfl rfl rfl rfl rfl

/-! Sticky-pair housekeeping, shared by the invariant claims -/

/-- How one internal transition may move the sticky pair: leave both
fields as they were, null both, or adopt a repeatable handler. -/
def stickyRel (a b : ossl_store_loader_ctx_st) : Prop :=
  (b.last_handler = a.last_handler ∧
    b.last_handler_ctx = a.last_handler_ctx) ∨
  (b.last_handler = none ∧ b.last_handler_ctx = none) ∨
  b.last_handler.map (fun h => h.repeatable) = some true

lemma stickyRel_refl (a : ossl_store_loader_ctx_st) : stickyRel a a :=
  Or.inl ⟨rfl, rfl⟩

lemma stickyRel_trans {a b c : ossl_store_loader_ctx_st}
    (h1 : stickyRel a b) (h2 : stickyRel b c) : stickyRel a c := by
  rcases h2 with ⟨hc1, hc2⟩ | h2 | h2
  · rcases h1 with ⟨hb1, hb2⟩ | h1 | h1
    · exact Or.inl ⟨hc1.trans hb1, hc2.trans hb2⟩
    · exact Or.inr (Or.inl ⟨hc1.trans h1.1, hc2.trans h1.2⟩)
    · exact Or.inr (Or.inr (by rw [hc1]; exact h1))
  · exact Or.inr (Or.inl h2)
  · exact Or.inr (Or.inr h2)

lemma stickyRel_inv {a b : ossl_store_loader_ctx_st}
    (hr : stickyRel a b) (ha : stickyInv a) : stickyInv b := by
  rcases hr with ⟨h1, h2⟩ | ⟨h1, h2⟩ | h1
  · intro hs
    rw [h2] at hs
    rw [h1]
    exact ha hs
  · intro hs
    rw [h2] at hs
    simp at hs
  · intro _
    rcases hmap : b.last_handler with _ | h
    · rw [hmap] at h1
      simp at h1
    · simp [hmap]

lemma step_stickyRel (hs : List FILE_HANDLER)
    (ctx : ossl_store_loader_ctx_st) (pn ph : Option Str) (b : Option Blob) :
    stickyRel ctx (file_load_try_decode_step hs ctx pn ph b).1 := by
  unfold file_load_try_decode_step
  dsimp only
  repeat' split
  all_goals first
    | exact stickyRel_refl _
    | (refine Or.inr (Or.inr ?_); simp [*])

lemma decode_stickyRel (hs : List FILE_HANDLER) (fuel : Nat) :
    ∀ (ctx : ossl_store_loader_ctx_st) (pn ph : Option Str) (b : Option Blob)
      (e : List StoreErr) ctx' r mc errs,
      file_load_try_decode hs fuel ctx pn ph b e = some (ctx', r, mc, errs) →
      stickyRel ctx ctx' := by
  induction fuel with
  | zero =>
    intro ctx pn ph b e ctx' r mc errs h
    simp [file_load_try_decode] at h
  | succ n ih =>
    intro ctx pn ph b e ctx' r mc errs h
    rw [file_load_try_decode] at h
    rcases hstep : file_load_try_decode_step hs ctx pn ph b with ⟨ctx2, acc⟩
    rw [hstep] at h
    dsimp only at h
    have hrel : stickyRel ctx ctx2 := by
      have := step_stickyRel hs ctx pn ph b
      rw [hstep] at this
      exact this
    rcases hres : acc.result with _ | r0
    · rw [hres] at h
      simp at h
      rw [← h.1]
      exact hrel
    · rw [hres] at h
      cases r0 with
      | EMBEDDED nm buf => exact stickyRel_trans hrel (ih ctx2 nm ph (some buf)
          (e ++ acc.errs) ctx' r mc errs h)
      | PKEY v => simp at h; rw [← h.1]; exact hrel
      | CERT v => simp at h; rw [← h.1]; exact hrel
      | CRL v => simp at h; rw [← h.1]; exact hrel
      | PARAMS v => simp at h; rw [← h.1]; exact hrel

lemma loop_stickyRel (hs : List FILE_HANDLER) (o : Codecs) (dfuel : Nat)
    (fuel : Nat) :
    ∀ (ctx : ossl_store_loader_ctx_st) res mc e ctx' r mc' e',
      file_load_loop hs o dfuel fuel ctx res mc e = some (ctx', r, mc', e') →
      stickyRel ctx ctx' := by
  induction fuel with
  | zero =>
    intro ctx res mc e ctx' r mc' e' h
    simp [file_load_loop] at h
  | succ n ih =>
    intro ctx res mc e ctx' r mc' e' h
    rw [file_load_loop] at h
    rcases hread : (if ctx.is_pem = true then file_read_pem o ctx.file
        else file_read_asn1 ctx.file) with ⟨readRes, file2⟩
    rw [hread] at h
    rcases readRes with _ | trip
    · dsimp only at h
      repeat' split at h
      all_goals first
        | (refine stickyRel_trans ?_ (ih _ _ _ _ _ _ _ _ h)
           exact Or.inl ⟨rfl, rfl⟩)
        | (simp at h; rw [← h.1]; exact Or.inl ⟨rfl, rfl⟩)
    · rcases trip with ⟨pn, ph, data⟩
      dsimp only at h
      rcases hdec : file_load_try_decode hs dfuel { ctx with file := file2 }
          pn ph (some data) [] with _ | ⟨ctx3, res3, mc3, errs3⟩
      · rw [hdec] at h
        simp at h
      · rw [hdec] at h
        have hrel : stickyRel ctx ctx3 :=
          stickyRel_trans (Or.inl ⟨rfl, rfl⟩)
            (decode_stickyRel hs dfuel { ctx with file := file2 } pn ph
              (some data) [] ctx3 res3 mc3 errs3 hdec)
        dsimp only at h
        repeat' split at h
        all_goals first
          | (refine stickyRel_trans ?_ (ih _ _ _ _ _ _ _ _ h)
             exact hrel)
          | (simp at h; rw [← h.1]; exact hrel)

/-- What a completed load does to the sticky pair: a successful sticky
yield keeps the handler (its context advances in place), otherwise the
pair is either untouched, nulled together, or replaced by an adopted
repeatable handler. -/
lemma load_stickyRel (o : Codecs) (dfuel : Nat)
    (ctx ctx' : ossl_store_loader_ctx_st) (r : Option OSSL_STORE_INFO)
    (errs : List StoreErr)
    (h : file_load o dfuel ctx = some (ctx', r, errs)) :
    ctx'.last_handler = ctx.last_handler ∨
    (ctx'.last_handler = none ∧ ctx'.last_handler_ctx = none) ∨
    ctx'.last_handler.map (fun g => g.repeatable) = some true := by
  unfold file_load at h
  rcases hrep : file_load_try_repeat ctx with ⟨ctx1, rr⟩
  rw [hrep] at h
  have hrep1 : ctx1.last_handler = ctx.last_handler ∨
      (ctx1.last_handler = none ∧ ctx1.last_handler_ctx = none) := by
    unfold file_load_try_repeat at hrep
    rcases hlh : ctx.last_handler with _ | g
    · rw [hlh] at hrep
      simp at hrep
      rw [← hrep.1, hlh]
      exact Or.inl rfl
    · rw [hlh] at hrep
      dsimp only at hrep
      rcases htd : g.try_decode none none none ctx.last_handler_ctx
        with ⟨res, c2⟩
      rw [htd] at hrep
      rcases res with _ | r2
      · simp at hrep
        rw [← hrep.1]
        exact Or.inr ⟨rfl, rfl⟩
      · simp at hrep
        obtain ⟨he1, -⟩ := hrep
        subst he1
        exact Or.inl (by simp [hlh])
  rcases rr with _ | r1
  · dsimp only at h
    split at h
    · simp at h
      rw [← h.1]
      rcases hrep1 with h1 | h1
      · exact Or.inl h1
      · exact Or.inr (Or.inl h1)
    · rcases hloop : file_load_loop (file_handlers o) o dfuel
          (ctx1.file.length + 1) ctx1 none (-1) [] with _ | ⟨ctx2, r2, mc2, e2⟩
      · rw [hloop] at h
        simp at h
      · rw [hloop] at h
        have hrel := loop_stickyRel (file_handlers o) o dfuel
          (ctx1.file.length + 1) ctx1 none (-1) [] ctx2 r2 mc2 e2 hloop
        have hctx2 : ctx' = ctx2 := by
          dsimp only at h
          split at h <;> (simp at h; exact h.1.symm)
        subst hctx2
        rcases hrel with ⟨h1, h2⟩ | h1 | h1
        · rcases hrep1 with hb | hb
          · exact Or.inl (h1.trans hb)
          · exact Or.inr (Or.inl ⟨h1.trans hb.1, h2.trans hb.2⟩)
        · exact Or.inr (Or.inl h1)
        · exact Or.inr (Or.inr h1)
  · simp at h
    rw [← h.1]
    unfold file_load_try_repeat at hrep
    rcases hlh : ctx.last_handler with _ | g
    · rw [hlh] at hrep
      simp at hrep
    · rw [hlh] at hrep
      dsimp only at hrep
      rcases htd : g.try_decode none none none ctx.last_handler_ctx
        with ⟨res, c2⟩
      rw [htd] at hrep
      rcases res with _ | r2
      · simp at hrep
      · simp at hrep
        obtain ⟨he1, -⟩ := hrep
        subst he1
        exact Or.inl (by simp [hlh])

/-- A completed load preserves the sticky-pair consistency invariant. -/
lemma load_stickyInv (o : Codecs) (dfuel : Nat)
    (ctx ctx' : ossl_store_loader_ctx_st) (r : Option OSSL_STORE_INFO)
    (errs : List StoreErr) (hinv : stickyInv ctx)
    (h : file_load o dfuel ctx = some (ctx', r, errs)) : stickyInv ctx' := by
  unfold file_load at h
  rcases hrep : file_load_try_repeat ctx with ⟨ctx1, rr⟩
  rw [hrep] at h
  have hinv1 : stickyInv ctx1 := by
    unfold file_load_try_repeat at hrep
    rcases hlh : ctx.last_handler with _ | g
    · rw [hlh] at hrep
      simp at hrep
      rw [← hrep.1]
      exact hinv
    · rw [hlh] at hrep
      dsimp only at hrep
      rcases htd : g.try_decode none none none ctx.last_handler_ctx
        with ⟨res, c2⟩
      rw [htd] at hrep
      rcases res with _ | r2
      · simp at hrep
        rw [← hrep.1]
        intro hx
        simp at hx
      · simp at hrep
        rw [← hrep.1]
        intro _
        simp [hlh]
  rcases rr with _ | r1
  · dsimp only at h
    split at h
    · simp at h
      rw [← h.1]
      exact hinv1
    · rcases hloop : file_load_loop (file_handlers o) o dfuel
          (ctx1.file.length + 1) ctx1 none (-1) [] with _ | ⟨ctx2, r2, mc2, e2⟩
      · rw [hloop] at h
        simp at h
      · rw [hloop] at h
        have hrel := loop_stickyRel (file_handlers o) o dfuel
          (ctx1.file.length + 1) ctx1 none (-1) [] ctx2 r2 mc2 e2 hloop
        have hctx2 : ctx' = ctx2 := by
          dsimp only at h
          split at h <;> (simp at h; exact h.1.symm)
        subst hctx2
        exact stickyRel_inv hrel hinv1
  · simp at h
    rw [← h.1]
    exact hinv1

/-- Every reachable loader state satisfies the sticky-pair invariant. -/
lemma reachable_stickyInv (o : Codecs) (ctx : ossl_store_loader_ctx_st)
    (h : Reachable o ctx) : stickyInv ctx := by
  induction h with
  | openR fs uri ctx0 hopen =>
    unfold file_open at hopen
    split at hopen
    · rcases hsp : file_scheme_path uri with _ | path
      · rw [hsp] at hopen
        cases hopen
      · rw [hsp] at hopen
        dsimp only at hopen
        split at hopen
        · unfold openPath at hopen
          rcases hfs : fs path with _ | f
          · rw [hfs] at hopen
            cases hopen
          · rw [hfs] at hopen
            cases hopen
            intro hx
            simp at hx
        · cases hopen
    · unfold openPath at hopen
      rcases hfs : fs uri with _ | f
      · rw [hfs] at hopen
        cases hopen
      · rw [hfs] at hopen
        cases hopen
        intro hx
        simp at hx
  | loadR ctx1 ctx2 dfuel r errs _ hload ih =>
    exact load_stickyInv o dfuel ctx1 ctx2 r errs ih hload

/-! C5: adoption of the sticky pair -/

/-- Claim C5: when the handler loop found exactly one match and that
handler is repeatable, the dispatch step adopts the (handler, private
state) pair as the loader's sticky pair; and on every reachable state, by
the time load reaches dispatch — i.e. whenever the sticky probe yielded
nothing — both sticky fields are already null, so there is never a live
previous context to orphan and the loader never holds more than one live
iteration state. -/
theorem C5_sticky_adoption (o : Codecs) (hs : List FILE_HANDLER)
    (ctx ctx2 ctx3 : ossl_store_loader_ctx_st) (pn ph : Option Str)
    (b : Option Blob) (h : FILE_HANDLER) :
    ((file_load_try_decode_pass pn ph b hs initDecodeAcc).matchcount = 1 →
      (file_load_try_decode_pass pn ph b hs initDecodeAcc).handler0 = some h →
      h.repeatable = true →
      (file_load_try_decode_step hs ctx pn ph b).1 =
        { ctx with
          last_handler := some h,
          last_handler_ctx :=
            (file_load_try_decode_pass pn ph b hs initDecodeAcc).handler_ctx }) ∧
    (Reachable o ctx2 → file_load_try_repeat ctx2 = (ctx3, none) →
      ctx3.last_handler = none ∧ ctx3.last_handler_ctx = none) := by
  constructor
  · intro hmc hh0 hrep
    unfold file_load_try_decode_step
    simp [hmc, hh0, hrep]
  · intro hreach hrep
    have hinv := reachable_stickyInv o ctx2 hreach
    unfold file_load_try_repeat at hrep
    rcases hlh : ctx2.last_handler with _ | g
    · rw [hlh] at hrep
      simp at hrep
      subst hrep
      refine ⟨hlh, ?_⟩
      rcases hx : ctx2.last_handler_ctx with _ | c
      · rfl
      · have := hinv (by simp [hx])
        rw [hlh] at this
        simp at this
    · rw [hlh] at hrep
      dsimp only at hrep
      rcases htd : g.try_decode none none none ctx2.last_handler_ctx
        with ⟨res, c2⟩
      rw [htd] at hrep
      rcases res with _ | r2
      · simp at hrep
        subst hrep
        exact ⟨rfl, rfl⟩
      · simp at hrep

/-- Witness for C5: under oBundle the PKCS12 handler is the unique match
on blob [0] and its produced stack is adopted; and a freshly opened
reachable loader whose sticky probe yields nothing has both sticky fields
null. -/
theorem C5_sticky_adoption_witness :
    ((file_load_try_decode_step (file_handlers oBundle) emptyLoaderCtx none
        none (some [0])).1 =
      { emptyLoaderCtx with
        last_handler := some (PKCS12_handler oBundle),
        last_handler_ctx :=
          (file_load_try_decode_pass none none (some [0])
            (file_handlers oBundle) initDecodeAcc).handler_ctx }) ∧
    (emptyLoaderCtx.last_handler = none ∧
      emptyLoaderCtx.last_handler_ctx = none) := by
  constructor
  · exact (C5_sticky_adoption oBundle (file_handlers oBundle) emptyLoaderCtx
      emptyLoaderCtx emptyLoaderCtx none none (some [0])
      (PKCS12_handler oBundle)).1 (by decide) rfl rfl
  · exact (C5_sticky_adoption oBundle (file_handlers oBundle) emptyLoaderCtx
      emptyLoaderCtx emptyLoaderCtx none none (some [0])
      (PKCS12_handler oBundle)).2
      (Reachable.openR (fun _ => some { is_pem := false, recs := [] })
        [] emptyLoaderCtx rfl) rfl

/-! C10: sticky-pair consistency across the lifecycle -/

/-- Claim C10: open establishes both sticky fields null; every reachable
state satisfies the consistency invariant (a live context only under a
live handler); a completed load leaves the handler component unchanged,
nulls both fields together, or installs an adopted repeatable handler;
and close destroys any live context — clearing both fields — with the
destroy step ordered before the stream and loader releases. -/
theorem C10_sticky_pair_lifecycle (o : Codecs) (dfuel : Nat)
    (fs : Str → Option File) (uri : Str)
    (ctx ctx2 ctx3 ctx4 ctx5 : ossl_store_loader_ctx_st)
    (r : Option OSSL_STORE_INFO) (errs : List StoreErr) :
    (file_open fs uri = Except.ok ctx →
      ctx.last_handler = none ∧ ctx.last_handler_ctx = none) ∧
    (Reachable o ctx2 → stickyInv ctx2) ∧
    (file_load o dfuel ctx3 = some (ctx4, r, errs) →
      ctx4.last_handler = ctx3.last_handler ∨
      (ctx4.last_handler = none ∧ ctx4.last_handler_ctx = none) ∨
      ctx4.last_handler.map (fun g => g.repeatable) = some true) ∧
    (((file_close ctx5).2.last_handler = none ∧
      (file_close ctx5).2.last_handler_ctx = none) ∧
     (ctx5.last_handler.isSome = true →
      (file_close ctx5).1 = [CloseAction.destroyHandlerCtx,
        CloseAction.freeStream, CloseAction.freeLoader]) ∧
     (ctx5.last_handler.isSome = false →
      (file_close ctx5).1 = [CloseAction.freeStream,
        CloseAction.freeLoader])) := by
  refine ⟨fun hopen => ?_, fun hreach => reachable_stickyInv o ctx2 hreach,
    fun hload => load_stickyRel o dfuel ctx3 ctx4 r errs hload, ?_, ?_, ?_⟩
  · unfold file_open at hopen
    split at hopen
    · rcases hsp : file_scheme_path uri with _ | path
      · rw [hsp] at hopen
        cases hopen
      · rw [hsp] at hopen
        dsimp only at hopen
        split at hopen
        · unfold openPath at hopen
          rcases hfs : fs path with _ | f
          · rw [hfs] at hopen
            cases hopen
          · rw [hfs] at hopen
            cases hopen
            exact ⟨rfl, rfl⟩
        · cases hopen
    · unfold openPath at hopen
      rcases hfs : fs uri with _ | f
      · rw [hfs] at hopen
        cases hopen
      · rw [hfs] at hopen
        cases hopen
        exact ⟨rfl, rfl⟩
  · unfold file_close
    split <;> exact ⟨rfl, rfl⟩
  · intro hsome
    unfold file_close
    rw [if_pos hsome]
  · intro hnone
    unfold file_close
    rw [if_neg (by rw [hnone]; exact Bool.false_ne_true)]

/-- Witness for C10 at concrete states: open of an empty file gives a
null pair; that state is reachable and satisfies the invariant; a load on
it leaves the handler unchanged; and close of a loader holding sticky
PKCS12 state destroys the context first and clears both fields. -/
theorem C10_sticky_pair_lifecycle_witness :
    (emptyLoaderCtx.last_handler = none ∧
      emptyLoaderCtx.last_handler_ctx = none) ∧
    stickyInv emptyLoaderCtx ∧
    (emptyLoaderCtx.last_handler = emptyLoaderCtx.last_handler ∨
      (emptyLoaderCtx.last_handler = none ∧
        emptyLoaderCtx.last_handler_ctx = none) ∨
      emptyLoaderCtx.last_handler.map (fun g => g.repeatable) = some true) ∧
    (((file_close
        { file := [], is_pem := false, errcnt := 0,
          last_handler := some (PKCS12_handler oNull),
          last_handler_ctx := some [] }).2.last_handler = none ∧
      (file_close
        { file := [], is_pem := false, errcnt := 0,
          last_handler := some (PKCS12_handler oNull),
          last_handler_ctx := some [] }).2.last_handler_ctx = none) ∧
     (file_close
        { file := [], is_pem := false, errcnt := 0,
          last_handler := some (PKCS12_handler oNull),
          last_handler_ctx := some [] }).1 =
       [CloseAction.destroyHandlerCtx, CloseAction.freeStream,
        CloseAction.freeLoader]) := by
  have base := C10_sticky_pair_lifecycle oNull 1
    (fun _ => some { is_pem := false, recs := [] }) [] emptyLoaderCtx
    emptyLoaderCtx emptyLoaderCtx emptyLoaderCtx
    { file := [], is_pem := false, errcnt := 0,
      last_handler := some (PKCS12_handler oNull),
      last_handler_ctx := some [] } none []
  refine ⟨base.1 rfl, ?_, ?_, base.2.2.2.1, base.2.2.2.2.1 rfl⟩
  · exact base.2.1 (Reachable.openR
      (fun _ => some { is_pem := false, recs := [] }) [] emptyLoaderCtx rfl)
  · exact base.2.2.1 rfl

end StoreFile
